import Mathlib

/-!
Shallow embedding of the real-time gateway and chat service of the
CircleSfera backend (NestJS + socket.io), covering:

* `AppGateway.handleConnection` / `handleDisconnect` (presence lifecycle),
* `AppGateway.extractToken` (credential extraction from the handshake),
* `AppGateway.handleTypingStart` / `handleTypingStop` / `handleSendReaction` /
  `handleMarkRead` (the socket event router),
* `ChatService.addReaction`, `ChatService.markAsRead`, `ChatService.sendMessage`,
* `RedisIoAdapter.connectToRedis` (backplane startup).

Machine effects (prisma writes, socket room joins, `server.to(room).emit`)
are made explicit: handlers return the updated state together with the list
of emitted events, in emission order.
-/

namespace Circlesfera

/-- The decoded JWT payload attached to an authenticated socket
(`interface JwtPayload { sub: string; email: string }`). -/
structure JwtPayload where
  sub : String
  email : String
deriving DecidableEq, Repr

/-- Payload of an outbound socket event, one constructor per wire shape
used by the handlers under study. -/
inductive Payload where
  /-- Wire shape `user_status {userId, isOnline, lastSeenAt?}`. -/
  | userStatus (userId : String) (isOnline : Bool) (lastSeenAt : Option Nat)
  /-- Wire shape `user_typing {userId, conversationId}`. -/
  | userTyping (userId : String) (conversationId : String)
  /-- Wire shape `user_stopped_typing {conversationId}`. -/
  | userStoppedTyping (conversationId : String)
  /-- Wire shape `message_reaction {messageId, userId, reaction, id}`. -/
  | messageReaction (messageId : String) (userId : String)
      (reaction : String) (id : String)
  /-- Wire shape `messages_read {conversationId, userId, readAt}`. -/
  | messagesRead (conversationId : String) (userId : String) (readAt : Nat)
  /-- Wire shape `receiveMessage {...message, tempId}`; the message fields are inlined. -/
  | receiveMessage (id : String) (content : String) (senderId : String)
      (conversationId : String) (mediaUrl : Option String)
      (mediaType : Option String) (postId : Option String)
      (tempId : Option String)
deriving DecidableEq, Repr

/-- One `server.to(room).emit(event, payload)` call: the room targeted,
the wire event name, and the payload. -/
structure Emit where
  room : String
  event : String
  payload : Payload
deriving DecidableEq, Repr

/-- The socket handshake data `extractToken` reads: the parsed cookie map
(`none` when no cookie header is present) and the `authorization` header. -/
structure Handshake where
  cookies : Option (List (String × String))
  authorization : Option String
deriving DecidableEq, Repr

/-- One socket.io client socket: handshake data, the `data.user` slot filled
on successful authentication, the set of joined rooms (join order kept,
joins idempotent as in socket.io), and whether the transport is open. -/
structure Socket where
  id : String
  handshake : Handshake
  dataUser : Option JwtPayload
  rooms : List String
  connected : Bool
deriving DecidableEq, Repr

/-- Embeds `client.join(room)`: idempotent room join, as socket.io stores
rooms in a `Set`. -/
def joinRoom (s : Socket) (room : String) : Socket :=
  if room ∈ s.rooms then s else { s with rooms := s.rooms ++ [room] }

/-- Embeds `client.disconnect()`. -/
def disconnectSocket (s : Socket) : Socket :=
  { s with connected := false }

/-- Constant `ACCESS_TOKEN_COOKIE = 'access_token'` from cookie.config.ts. -/
def ACCESS_TOKEN_COOKIE : String := "access_token"

/-- Cookie branch of `AppGateway.extractToken`: if a cookie header is present
and parses, return `cookies[ACCESS_TOKEN_COOKIE]` when set. -/
def cookieToken (h : Handshake) : Option String :=
  match h.cookies with
  | some cs => cs.lookup ACCESS_TOKEN_COOKIE
  | none => none

/-- Header branch of `AppGateway.extractToken`: when the `authorization`
header starts with `Bearer `, return `authHeader.split(' ')[1]`. -/
def bearerToken (h : Handshake) : Option String :=
  match h.authorization with
  | some a => if a.startsWith "Bearer " then (a.splitOn " ").get? 1 else none
  | none => none

/-- Embeds `AppGateway.extractToken`: HTTP-only cookie first, then the
`Authorization: Bearer` header, else `undefined`. -/
def extractToken (h : Handshake) : Option String :=
  match cookieToken h with
  | some t => some t
  | none => bearerToken h

/-- One persisted `User` row, restricted to the fields the gateway
touches (`isOnline`, `lastSeenAt`). -/
structure UserRow where
  isOnline : Bool
  lastSeenAt : Option Nat
deriving DecidableEq, Repr

/-- One `Follow` row (`followerId` follows `followingId`). -/
structure Follow where
  followerId : String
  followingId : String
deriving DecidableEq, Repr

/-- The persistent state the gateway reads and writes: the `User` table
(total over ids: every authenticated id has a row) and the `Follow` table. -/
structure GwState where
  users : String → UserRow
  follows : List Follow

/-- Embeds `prisma.user.update({where: {id}, data})` for the gateway's two
write shapes, keeping the untouched field. -/
def setOnline (users : String → UserRow) (id : String) (b : Bool)
    (lastSeen : Option (Option Nat)) : String → UserRow :=
  fun x =>
    if x = id then
      { isOnline := b
        lastSeenAt := match lastSeen with
          | some v => v
          | none => (users id).lastSeenAt }
    else users x

/-- Embeds `prisma.follow.findMany({where: {followerId}})` followed by the
map building one `presence:` room name per followed id. -/
def followRooms (st : GwState) (followerId : String) : List String :=
  (st.follows.filter (fun f => f.followerId = followerId)).map
    (fun f => "presence:" ++ f.followingId)

/-- Embeds `AppGateway.handleConnection`: extract the token, verify it (`verify`
abstracts `jwtService.verifyAsync`; `none` = rejection), then attach the
user, join `user:<sub>`, the followed `presence:` rooms and own
`presence:<sub>`, persist `isOnline: true`, and emit `user_status` to
`presence:<sub>`. Any failure before the joins is caught: the socket is
disconnected and nothing else happens. -/
def handleConnection (verify : String → Option JwtPayload)
    (st : GwState) (client : Socket) : GwState × Socket × List Emit :=
  match extractToken client.handshake with
  | none => (st, disconnectSocket client, [])
  | some token =>
    match verify token with
    | none => (st, disconnectSocket client, [])
    | some payload =>
      let c1 : Socket := { client with dataUser := some payload }
      let c2 := joinRoom c1 ("user:" ++ payload.sub)
      let c3 := (followRooms st payload.sub).foldl joinRoom c2
      let c4 := joinRoom c3 ("presence:" ++ payload.sub)
      let st' : GwState :=
        { st with users := setOnline st.users payload.sub true none }
      (st', c4,
        [{ room := "presence:" ++ payload.sub
           event := "user_status"
           payload := .userStatus payload.sub true none }])

/-- Embeds `AppGateway.handleDisconnect`: if `client.data?.user` is set, persist
`isOnline: false, lastSeenAt: now` and emit the offline `user_status`
event to `presence:<sub>`; otherwise do nothing. -/
def handleDisconnect (st : GwState) (client : Socket) (now : Nat) :
    GwState × List Emit :=
  match client.dataUser with
  | some user =>
    ({ st with users := setOnline st.users user.sub false (some (some now)) },
      [{ room := "presence:" ++ user.sub
         event := "user_status"
         payload := .userStatus user.sub false (some now) }])
  | none => (st, [])

/-! ### ChatService state -/

/-- One persisted `MessageReaction` row. -/
structure MessageReaction where
  id : String
  messageId : String
  userId : String
  reaction : String
deriving DecidableEq, Repr

/-- One persisted `Participant` row (membership of a user in a
conversation, with the read marker `lastReadAt`). -/
structure ParticipantRow where
  conversationId : String
  userId : String
  lastReadAt : Option Nat
deriving DecidableEq, Repr

/-- One persisted `Conversation` row (participants live in the separate
`Participant` table). -/
structure ConversationRow where
  id : String
  isGroup : Bool
deriving DecidableEq, Repr

/-- One persisted `Message` row, restricted to the fields `sendMessage`
writes. -/
structure MessageRow where
  id : String
  content : String
  senderId : String
  conversationId : String
  mediaUrl : Option String
  mediaType : Option String
  postId : Option String
deriving DecidableEq, Repr

/-- Errors the chat service surfaces: the three Nest exceptions its code
throws, plus `dbError` for a rejected persistence (prisma write) call. -/
inductive ChatErr where
  | notFound (msg : String)
  | forbidden (msg : String)
  | badRequest (msg : String)
  | dbError
deriving DecidableEq, Repr

/-- The chat database: the four tables the service touches, a counter
generating fresh row ids (prisma's cuid), and two fault switches modelling
a rejected `messageReaction` write and a rejected `message.create`. -/
structure ChatDb where
  conversations : List ConversationRow
  participants : List ParticipantRow
  messages : List MessageRow
  reactions : List MessageReaction
  nextId : Nat
  reactionWriteFails : Bool
  messageCreateFails : Bool
deriving DecidableEq, Repr

/-- Fresh row id from the generator counter. -/
def freshId (n : Nat) : String := "row" ++ toString n

/-- Participant rows of one conversation (the `include: {participants}`
relation load). -/
def conversationParticipants (db : ChatDb) (cid : String) :
    List ParticipantRow :=
  db.participants.filter (fun p => p.conversationId == cid)

/-- Embeds `prisma.conversation.findUnique({where: {id}})`. -/
def findConversation (db : ChatDb) (cid : String) : Option ConversationRow :=
  db.conversations.find? (fun c => c.id == cid)

/-- Embeds the `prisma.conversation.findFirst` query of `sendMessage`:
first non-group conversation having both users among its participants. -/
def findOneOnOne (db : ChatDb) (a b : String) : Option ConversationRow :=
  db.conversations.find? (fun c =>
    !c.isGroup
      && (conversationParticipants db c.id).any (fun p => p.userId == a)
      && (conversationParticipants db c.id).any (fun p => p.userId == b))

/-- Embeds `ChatService.addReaction`: upsert keyed on
`messageId_userId` — update the existing row's `reaction` keeping its id,
or create a fresh row. A rejected persistence call yields `dbError`. -/
def addReaction (db : ChatDb) (messageId userId reaction : String) :
    Except ChatErr (ChatDb × MessageReaction) :=
  if db.reactionWriteFails then .error .dbError
  else
    match db.reactions.find?
        (fun r => r.messageId == messageId && r.userId == userId) with
    | some existing =>
      let updated : MessageReaction := { existing with reaction := reaction }
      let reactions' :=
        db.reactions.map (fun r => if r.id == existing.id then updated else r)
      .ok ({ db with reactions := reactions' }, updated)
    | none =>
      let created : MessageReaction :=
        { id := freshId db.nextId, messageId := messageId,
          userId := userId, reaction := reaction }
      let db' : ChatDb :=
        { db with
          reactions := db.reactions ++ [created]
          nextId := db.nextId + 1 }
      .ok (db', created)

/-- Embeds `ChatService.markAsRead`:
`prisma.participant.updateMany({where: {conversationId, userId}, data:
{lastReadAt: new Date()}})`. -/
def markAsRead (db : ChatDb) (conversationId userId : String) (now : Nat) :
    ChatDb :=
  { db with participants := db.participants.map (fun p =>
      if p.conversationId == conversationId && p.userId == userId then
        { p with lastReadAt := some now }
      else p) }

/-- Steps 2–3 of `ChatService.sendMessage`: `prisma.message.create` for the
resolved conversation, then one `receiveMessage` emit to `user:<p.userId>`
per participant row of that conversation. On a rejected create, the error
propagates and nothing is emitted. -/
def createMessageAndBroadcast (db : ChatDb) (conv : ConversationRow)
    (senderId content : String) (mediaUrl mediaType postId tempId :
    Option String) : ChatDb × List Emit × Except ChatErr MessageRow :=
  if db.messageCreateFails then (db, [], .error .dbError)
  else
    let m : MessageRow :=
      { id := freshId db.nextId, content := content, senderId := senderId,
        conversationId := conv.id, mediaUrl := mediaUrl,
        mediaType := mediaType, postId := postId }
    let db' : ChatDb :=
      { db with messages := db.messages ++ [m], nextId := db.nextId + 1 }
    (db',
     (conversationParticipants db' conv.id).map (fun p =>
       { room := "user:" ++ p.userId
         event := "receiveMessage"
         payload := .receiveMessage m.id m.content m.senderId
           m.conversationId m.mediaUrl m.mediaType m.postId tempId }),
     .ok m)

/-- Embeds `ChatService.sendMessage`: resolve the conversation (`NotFound`
when the given id is unknown, `Forbidden` when the sender is not one of
its participants; otherwise find-or-create the 1-on-1 conversation with
`recipientId`; `BadRequest` when neither id is supplied), then create the
message and broadcast it to every participant. -/
def sendMessage (db : ChatDb) (senderId : String)
    (recipientId : Option String) (content : String)
    (mediaUrl mediaType conversationId tempId postId : Option String) :
    ChatDb × List Emit × Except ChatErr MessageRow :=
  match conversationId with
  | some cid =>
    match findConversation db cid with
    | none => (db, [], .error (.notFound "Conversation not found"))
    | some conv =>
      if (conversationParticipants db conv.id).any
          (fun p => p.userId == senderId) then
        createMessageAndBroadcast db conv senderId content
          mediaUrl mediaType postId tempId
      else (db, [], .error (.forbidden "Not a participant"))
  | none =>
    match recipientId with
    | some rid =>
      match findOneOnOne db senderId rid with
      | some conv =>
        createMessageAndBroadcast db conv senderId content
          mediaUrl mediaType postId tempId
      | none =>
        let cid := freshId db.nextId
        let conv : ConversationRow := { id := cid, isGroup := false }
        let newParts : List ParticipantRow :=
          [{ conversationId := cid, userId := senderId, lastReadAt := none },
           { conversationId := cid, userId := rid, lastReadAt := none }]
        let db1 : ChatDb :=
          { db with
            conversations := db.conversations ++ [conv]
            participants := db.participants ++ newParts
            nextId := db.nextId + 1 }
        createMessageAndBroadcast db1 conv senderId content
          mediaUrl mediaType postId tempId
    | none =>
      (db, [],
        .error (.badRequest "Either conversationId or recipientId is required"))

/-! ### Socket event router (chat actions) -/

/-- Inbound `typing_start` / `typing_stop` / `mark_read` payload as the
handlers type it. `extraClaimedUserId` models any extra identity field an
untrusted client may add to the JSON; the handlers never read it. -/
structure TypingPayload where
  conversationId : String
  recipientId : String
  extraClaimedUserId : Option String
deriving DecidableEq, Repr

/-- Inbound `send_reaction` payload; `extraClaimedUserId` as in
`TypingPayload`. -/
structure ReactionPayload where
  messageId : String
  recipientId : String
  reaction : String
  extraClaimedUserId : Option String
deriving DecidableEq, Repr

/-- Embeds `AppGateway.handleTypingStart`: emit `user_typing` to
`user:<recipientId>` with `userId` taken from `client.data.user.sub`. -/
def handleTypingStart (user : JwtPayload) (p : TypingPayload) : List Emit :=
  [{ room := "user:" ++ p.recipientId
     event := "user_typing"
     payload := .userTyping user.sub p.conversationId }]

/-- Embeds `AppGateway.handleTypingStop`: emit `user_stopped_typing` to
`user:<recipientId>`. -/
def handleTypingStop (p : TypingPayload) : List Emit :=
  [{ room := "user:" ++ p.recipientId
     event := "user_stopped_typing"
     payload := .userStoppedTyping p.conversationId }]

/-- Embeds `AppGateway.handleSendReaction`: await
`chatService.addReaction(messageId, client.data.user.sub, reaction)`; on
success emit `message_reaction` to `user:<recipientId>` and then to
`user:<sender>` with the same payload; on rejection the error propagates
and nothing is emitted. -/
def handleSendReaction (db : ChatDb) (user : JwtPayload)
    (p : ReactionPayload) : ChatDb × List Emit × Except ChatErr MessageReaction :=
  match addReaction db p.messageId user.sub p.reaction with
  | .error e => (db, [], .error e)
  | .ok (db', r) =>
    (db',
     [{ room := "user:" ++ p.recipientId
        event := "message_reaction"
        payload := .messageReaction p.messageId user.sub p.reaction r.id },
      { room := "user:" ++ user.sub
        event := "message_reaction"
        payload := .messageReaction p.messageId user.sub p.reaction r.id }],
     .ok r)

/-- Embeds `AppGateway.handleMarkRead`: emit `messages_read` to
`user:<recipientId>` with `userId` from `client.data.user.sub` and
`readAt` the current time. The handler body performs no persistence call,
so the database comes back unchanged. -/
def handleMarkRead (db : ChatDb) (user : JwtPayload) (p : TypingPayload)
    (now : Nat) : ChatDb × List Emit :=
  (db,
   [{ room := "user:" ++ p.recipientId
      event := "messages_read"
      payload := .messagesRead p.conversationId user.sub now }])

/-- The `userId` field of an outbound payload, when its wire shape has
one (`receiveMessage` carries it as `senderId`). -/
def payloadUserId : Payload → Option String
  | .userStatus u _ _ => some u
  | .userTyping u _ => some u
  | .userStoppedTyping _ => none
  | .messageReaction _ u _ _ => some u
  | .messagesRead _ u _ => some u
  | .receiveMessage _ _ s _ _ _ _ _ => some s

/-! ### Connection-lifecycle driver

Runs a sequence of socket connects and disconnects against the gateway,
accumulating the emitted events, to state the presence invariants. -/

/-- One connection-lifecycle event: a socket (fresh id) opening with a
credential for `identity`, or an open socket closing at time `now`. -/
inductive ConnEv where
  | connect (sockId identity : String)
  | disconnect (sockId : String) (now : Nat)
deriving DecidableEq, Repr

/-- A fresh socket presenting the access-token cookie for `identity`. -/
def authSocket (sockId identity : String) : Socket :=
  { id := sockId
    handshake := { cookies := some [(ACCESS_TOKEN_COOKIE, identity)]
                   authorization := none }
    dataUser := none
    rooms := []
    connected := true }

/-- Token verification used by the driver: every token is accepted and
names its identity (the driver studies event counts, not auth failures). -/
def idVerify : String → Option JwtPayload := fun t => some { sub := t, email := t }

/-- Driver state: the gateway's persistent state, the live sockets of this
process, and every event emitted so far, in order. -/
structure World where
  gw : GwState
  sockets : List Socket
  emits : List Emit

/-- Applies one lifecycle event: a connect runs `handleConnection` on a
fresh authenticated socket; a disconnect runs `handleDisconnect` on the
named socket and removes it (unknown ids are ignored). -/
def stepWorld (w : World) (ev : ConnEv) : World :=
  match ev with
  | .connect sid identity =>
    let r := handleConnection idVerify w.gw (authSocket sid identity)
    { gw := r.1, sockets := w.sockets ++ [r.2.1], emits := w.emits ++ r.2.2 }
  | .disconnect sid now =>
    match w.sockets.find? (fun s => s.id == sid) with
    | none => w
    | some s =>
      let r := handleDisconnect w.gw s now
      { gw := r.1
        sockets := w.sockets.filter (fun s2 => s2.id != sid)
        emits := w.emits ++ r.2 }

/-- Runs a whole sequence of lifecycle events. -/
def runWorld (w : World) (evs : List ConnEv) : World := evs.foldl stepWorld w

/-- The empty starting world: everyone offline, no follows, no sockets. -/
def initWorld : World :=
  { gw := { users := fun _ => { isOnline := false, lastSeenAt := none }
            follows := [] }
    sockets := [], emits := [] }

/-- Number of live connections of an identity (the spec's
`connectionCount`). -/
def liveCount (w : World) (identity : String) : Nat :=
  (w.sockets.filter (fun s =>
    s.connected && (match s.dataUser with
      | some u => u.sub == identity
      | none => false))).length

/-- Number of `user_status` events published so far on the identity's
presence topic. -/
def presenceEventCount (w : World) (identity : String) : Nat :=
  (w.emits.filter (fun e =>
    e.room == "presence:" ++ identity && e.event == "user_status")).length

/-- Number of 0↔non-zero transitions of the identity's live-connection
count along a run. -/
def countTransitions (identity : String) : World → List ConnEv → Nat
  | _, [] => 0
  | w, ev :: rest =>
    let w' := stepWorld w ev
    (if (liveCount w identity == 0) != (liveCount w' identity == 0)
     then 1 else 0) + countTransitions identity w' rest

/-! ### Backplane adapter -/

/-- Whether the Redis backplane is reachable at startup. -/
inductive BackplaneOutcome where
  | reachable
  | unreachable
deriving DecidableEq, Repr

/-- What `RedisIoAdapter.connectToRedis` leaves behind: console warnings,
whether its promise resolved (so the caller saw no rejection), and whether
`adapterConstructor` was assigned. -/
structure AdapterResult where
  warnings : List String
  resolved : Bool
  adapterInstalled : Bool
deriving DecidableEq, Repr

/-- Embeds `RedisIoAdapter.connectToRedis`: the `Promise.all` of the two
client connects carries a `.catch` that only logs a warning, so the method
resolves either way and still assigns `adapterConstructor`. -/
def connectToRedis (o : BackplaneOutcome) : AdapterResult :=
  match o with
  | .reachable => { warnings := [], resolved := true, adapterInstalled := true }
  | .unreachable =>
    { warnings :=
        ["Could not connect to Redis for WebSockets. Scaling may be limited."]
      resolved := true
      adapterInstalled := true }

/-- Modelled from the spec: same-process fanout. The socket.io server
(outside this repository's sources) delivers a `server.to(topic).emit` to
every local socket subscribed to the topic; the Redis adapter additionally
relays it cross-process. `subs` lists each local socket id with its
subscribed topics. -/
def deliverLocal (subs : List (String × List String)) (topic : String) :
    List String :=
  (subs.filter (fun cs => topic ∈ cs.2)).map (fun cs => cs.1)

/-- Modelled from the spec: a publish delivers locally through
`deliverLocal` and is relayed to other processes only while the backplane
is reachable; an unreachable backplane drops the relay, it does not fail
the publish. -/
def publishEvent (o : BackplaneOutcome) (subs : List (String × List String))
    (topic : String) : List String × Bool :=
  (deliverLocal subs topic, o == .reachable)

/-! ### Concrete scenarios -/

/-- Identity `u` opens three connections, then closes two of them
(the spec's 3-connects-then-2-disconnects example). -/
def threeConnectsTwoDisconnects : List ConnEv :=
  [.connect "s1" "u", .connect "s2" "u", .connect "s3" "u",
   .disconnect "s1" 10, .disconnect "s2" 11]

/-- Identity `u` opens two connections and closes one, leaving one live. -/
def twoConnectsOneDisconnect : List ConnEv :=
  [.connect "s1" "u", .connect "s2" "u", .disconnect "s1" 10]

/-- The identity `u` as a JWT payload (as `idVerify` resolves it). -/
def userU : JwtPayload := { sub := "u", email := "u" }

/-- A live socket already authenticated as `u`. -/
def openSocketU : Socket :=
  { id := "s9"
    handshake := { cookies := none, authorization := none }
    dataUser := some userU
    rooms := []
    connected := true }

/-- A socket presenting no credential at all. -/
def noTokenSocket : Socket :=
  { id := "s0"
    handshake := { cookies := none, authorization := none }
    dataUser := none
    rooms := []
    connected := true }

/-- Token verification that rejects everything. -/
def rejectVerify : String → Option JwtPayload := fun _ => none

/-- Gateway state where `u` follows `f1`. -/
def gwFollowState : GwState :=
  { users := fun _ => { isOnline := false, lastSeenAt := none }
    follows := [{ followerId := "u", followingId := "f1" }] }

/-- The empty chat database with working persistence. -/
def chatDb0 : ChatDb :=
  { conversations := [], participants := [], messages := [], reactions := []
    nextId := 0, reactionWriteFails := false, messageCreateFails := false }

/-- Chat database whose reaction writes reject. -/
def chatDbReactionDown : ChatDb := { chatDb0 with reactionWriteFails := true }

/-- The sender `U1`. -/
def userU1 : JwtPayload := { sub := "U1", email := "u1" }

/-- The spec's reaction scenario payload:
`send-reaction{messageId:"m1", recipient:"U2", reaction:"👍"}`. -/
def react0 : ReactionPayload :=
  { messageId := "m1", recipientId := "U2", reaction := "👍"
    extraClaimedUserId := none }

/-- A `mark_read` / typing payload for conversation `c1` toward `U2`. -/
def mark0 : TypingPayload :=
  { conversationId := "c1", recipientId := "U2", extraClaimedUserId := none }

/-- Chat database where `U1` participates in conversation `c1` with an
unset read marker. -/
def chatDbC4 : ChatDb :=
  { chatDb0 with participants :=
      [{ conversationId := "c1", userId := "U1", lastReadAt := none }] }

/-- Chat database holding the 1-on-1 conversation `c1` between `U1` and
`U2`. -/
def chatDbConv : ChatDb :=
  { chatDb0 with
    conversations := [{ id := "c1", isGroup := false }]
    participants :=
      [{ conversationId := "c1", userId := "U1", lastReadAt := none },
       { conversationId := "c1", userId := "U2", lastReadAt := none }] }

/-- Same as `chatDbConv` but `message.create` rejects. -/
def chatDbConvDown : ChatDb := { chatDbConv with messageCreateFails := true }


/-! ### Helper lemmas -/

/-- Membership in a socket's rooms after one `client.join`. -/
theorem mem_joinRoom (s : Socket) (room r : String) :
    r ∈ (joinRoom s room).rooms ↔ r ∈ s.rooms ∨ r = room := by
  unfold joinRoom
  split
  · rename_i h
    constructor
    · exact Or.inl
    · intro hr
      rcases hr with hr | hr
      · exact hr
      · exact hr ▸ h
  · simp [or_comm]

/-- Membership in a socket's rooms after a sequence of `client.join`s. -/
theorem mem_foldl_joinRoom (l : List String) (s : Socket) (r : String) :
    r ∈ (l.foldl joinRoom s).rooms ↔ r ∈ s.rooms ∨ r ∈ l := by
  induction l generalizing s with
  | nil => simp
  | cons a as ih =>
    simp [List.foldl_cons, ih, mem_joinRoom]
    tauto

/-- C1 as stated, refuted: three connects followed by two disconnects of
one identity publish five presence events (the code emits one per call)
while the live-connection count makes exactly one 0↔non-zero transition. -/
theorem claim_C1_counterexample :
    ¬ (presenceEventCount (runWorld initWorld threeConnectsTwoDisconnects) "u" =
        countTransitions "u" initWorld threeConnectsTwoDisconnects) := by
  decide

/-- C1, amended: presence events are counted per call, not per
0↔non-zero transition — every successful connect publishes exactly one
online `user_status` event on the identity's presence topic, and every
disconnect of an authenticated socket publishes exactly one offline
event, whatever the identity's other live connections. -/
theorem claim_C1 :
    (∀ (verify : String → Option JwtPayload) (st : GwState) (c : Socket)
        (tok : String) (p : JwtPayload),
        extractToken c.handshake = some tok → verify tok = some p →
        (handleConnection verify st c).2.2 =
          [{ room := "presence:" ++ p.sub, event := "user_status",
             payload := .userStatus p.sub true none }]) ∧
    (∀ (st : GwState) (c : Socket) (now : Nat) (u : JwtPayload),
        c.dataUser = some u →
        (handleDisconnect st c now).2 =
          [{ room := "presence:" ++ u.sub, event := "user_status",
             payload := .userStatus u.sub false (some now) }]) := by
  constructor
  · intro verify st c tok p h1 h2
    simp [handleConnection, h1, h2]
  · intro st c now u h
    simp [handleDisconnect, h]

/-- Witness for C1 at concrete inputs. -/
theorem claim_C1_witness :
    (handleConnection idVerify gwFollowState (authSocket "s1" "u")).2.2 =
      [{ room := "presence:" ++ "u", event := "user_status",
         payload := .userStatus "u" true none }] ∧
    (handleDisconnect gwFollowState openSocketU 7).2 =
      [{ room := "presence:" ++ "u", event := "user_status",
         payload := .userStatus "u" false (some 7) }] :=
  ⟨claim_C1.1 idVerify gwFollowState (authSocket "s1" "u") "u" userU (by decide) rfl,
   claim_C1.2 gwFollowState openSocketU 7 userU rfl⟩

/-- C2 as stated, refuted: after two connects and one disconnect the live
count is 1 yet the persisted flag is false, and the last-seen stamp was
written although another connection of the identity stayed live. -/
theorem claim_C2_counterexample :
    liveCount (runWorld initWorld twoConnectsOneDisconnect) "u" = 1 ∧
    ((runWorld initWorld twoConnectsOneDisconnect).gw.users "u").lastSeenAt = some 10 ∧
    ¬ (((runWorld initWorld twoConnectsOneDisconnect).gw.users "u").isOnline =
        (liveCount (runWorld initWorld twoConnectsOneDisconnect) "u" != 0)) := by
  decide

/-- C2, amended: every successful connect persists `isOnline = true`
(keeping the stored last-seen stamp), and every disconnect of an
authenticated socket persists `isOnline = false` with `lastSeenAt` the
disconnect time — even when other connections of the identity are live. -/
theorem claim_C2 :
    (∀ (verify : String → Option JwtPayload) (st : GwState) (c : Socket)
        (tok : String) (p : JwtPayload),
        extractToken c.handshake = some tok → verify tok = some p →
        (handleConnection verify st c).1.users p.sub =
          { isOnline := true, lastSeenAt := (st.users p.sub).lastSeenAt }) ∧
    (∀ (st : GwState) (c : Socket) (now : Nat) (u : JwtPayload),
        c.dataUser = some u →
        (handleDisconnect st c now).1.users u.sub =
          { isOnline := false, lastSeenAt := some now }) := by
  constructor
  · intro verify st c tok p h1 h2
    simp [handleConnection, h1, h2, setOnline]
  · intro st c now u h
    simp [handleDisconnect, h, setOnline]

/-- Witness for C2 at concrete inputs. -/
theorem claim_C2_witness :
    (handleConnection idVerify gwFollowState (authSocket "s1" "u")).1.users "u" =
      { isOnline := true, lastSeenAt := (gwFollowState.users "u").lastSeenAt } ∧
    (handleDisconnect gwFollowState openSocketU 7).1.users "u" =
      { isOnline := false, lastSeenAt := some 7 } :=
  ⟨claim_C2.1 idVerify gwFollowState (authSocket "s1" "u") "u" userU (by decide) rfl,
   claim_C2.2 gwFollowState openSocketU 7 userU rfl⟩

/-- C4 as stated, refuted: on a concrete database where the read-marker
update would set `lastReadAt`, `handleMarkRead` leaves the database
untouched — the router performs no persistence call. -/
theorem claim_C4_counterexample :
    (handleMarkRead chatDbC4 userU1 mark0 5).1 ≠
      markAsRead chatDbC4 mark0.conversationId userU1.sub 5 := by
  decide

/-- C4, amended: for every inbound mark-read event the router publishes a
`messages_read` event with payload `{conversationId, userId, readAt}` to
the recipient's self topic, where `userId` is the authenticated sender,
but performs no read-marker persistence call (database unchanged). -/
theorem claim_C4 :
    ∀ (db : ChatDb) (user : JwtPayload) (p : TypingPayload) (now : Nat),
      handleMarkRead db user p now =
        (db, [{ room := "user:" ++ p.recipientId, event := "messages_read",
                payload := .messagesRead p.conversationId user.sub now }]) :=
  fun _ _ _ _ => rfl

/-- C7: when no token is present or verification rejects, the connection
is closed and never registered — no room joined, no status persisted, no
event published (`handleConnection` returns the state untouched and the
merely-disconnected socket) — and `handleDisconnect` on such an
unauthenticated socket writes and publishes nothing. -/
theorem claim_C7 :
    (∀ (verify : String → Option JwtPayload) (st : GwState) (c : Socket),
        extractToken c.handshake = none →
        handleConnection verify st c = (st, disconnectSocket c, [])) ∧
    (∀ (verify : String → Option JwtPayload) (st : GwState) (c : Socket)
        (tok : String),
        extractToken c.handshake = some tok → verify tok = none →
        handleConnection verify st c = (st, disconnectSocket c, [])) ∧
    (∀ (st : GwState) (c : Socket) (now : Nat),
        c.dataUser = none → handleDisconnect st c now = (st, [])) ∧
    (∀ c : Socket,
        (disconnectSocket c).rooms = c.rooms ∧
        (disconnectSocket c).dataUser = c.dataUser ∧
        (disconnectSocket c).connected = false) := by
  refine ⟨?_, ?_, ?_, ?_⟩
  · intro verify st c h
    simp [handleConnection, h]
  · intro verify st c tok h1 h2
    simp [handleConnection, h1, h2]
  · intro st c now h
    simp [handleDisconnect, h]
  · intro c
    exact ⟨rfl, rfl, rfl⟩

/-- Witness for C7 at concrete inputs. -/
theorem claim_C7_witness :
    handleConnection idVerify gwFollowState noTokenSocket =
      (gwFollowState, disconnectSocket noTokenSocket, []) ∧
    handleConnection rejectVerify gwFollowState (authSocket "s1" "u") =
      (gwFollowState, disconnectSocket (authSocket "s1" "u"), []) ∧
    handleDisconnect gwFollowState noTokenSocket 3 = (gwFollowState, []) :=
  ⟨claim_C7.1 idVerify gwFollowState noTokenSocket rfl,
   claim_C7.2.1 rejectVerify gwFollowState (authSocket "s1" "u") "u" (by decide) rfl,
   claim_C7.2.2.1 gwFollowState noTokenSocket 3 rfl⟩

/-- C8: `connectToRedis` resolves (never raises to its caller) whether or
not the backplane is reachable, warns exactly when it is unreachable, and
local same-process delivery of a publish is identical with the backplane
reachable or not. -/
theorem claim_C8 :
    (∀ o : BackplaneOutcome, (connectToRedis o).resolved = true) ∧
    ((connectToRedis .unreachable).warnings ≠ [] ∧
      (connectToRedis .reachable).warnings = []) ∧
    (∀ (subs : List (String × List String)) (topic : String),
        (publishEvent .unreachable subs topic).1 =
          (publishEvent .reachable subs topic).1 ∧
        (publishEvent .unreachable subs topic).1 = deliverLocal subs topic) := by
  refine ⟨?_, ⟨?_, rfl⟩, ?_⟩
  · intro o; cases o <;> rfl
  · decide
  · intro subs topic; exact ⟨rfl, rfl⟩

/-- C3: for every inbound `send_reaction`, if `addReaction` succeeds the
handler publishes exactly two `message_reaction` events — to the
recipient's and the sender's self topics — with identical payloads
`{messageId, userId = sender, reaction, id = persisted id}`; if it fails,
nothing is published and the same error propagates. -/
theorem claim_C3 :
    ∀ (db : ChatDb) (user : JwtPayload) (p : ReactionPayload),
      (∀ (db' : ChatDb) (r : MessageReaction),
        addReaction db p.messageId user.sub p.reaction = .ok (db', r) →
        handleSendReaction db user p =
          (db',
           [{ room := "user:" ++ p.recipientId, event := "message_reaction",
              payload := .messageReaction p.messageId user.sub p.reaction r.id },
            { room := "user:" ++ user.sub, event := "message_reaction",
              payload := .messageReaction p.messageId user.sub p.reaction r.id }],
           .ok r)) ∧
      (∀ e : ChatErr,
        addReaction db p.messageId user.sub p.reaction = .error e →
        handleSendReaction db user p = (db, [], .error e)) := by
  intro db user p
  constructor
  · intro db' r h
    simp [handleSendReaction, h]
  · intro e h
    simp [handleSendReaction, h]

/-- Witness for C3: the spec's 👍-reaction scenario, both outcomes. -/
theorem claim_C3_witness :
    handleSendReaction chatDb0 userU1 react0 =
      ({ chatDb0 with
         reactions := [{ id := "row0", messageId := "m1", userId := "U1",
                         reaction := "👍" }]
         nextId := 1 },
       [{ room := "user:" ++ "U2", event := "message_reaction",
          payload := .messageReaction "m1" "U1" "👍" "row0" },
        { room := "user:" ++ "U1", event := "message_reaction",
          payload := .messageReaction "m1" "U1" "👍" "row0" }],
       .ok { id := "row0", messageId := "m1", userId := "U1", reaction := "👍" }) ∧
    handleSendReaction chatDbReactionDown userU1 react0 =
      (chatDbReactionDown, [], .error .dbError) :=
  ⟨(claim_C3 chatDb0 userU1 react0).1
      { chatDb0 with
        reactions := [{ id := "row0", messageId := "m1", userId := "U1",
                        reaction := "👍" }]
        nextId := 1 }
      { id := "row0", messageId := "m1", userId := "U1", reaction := "👍" }
      rfl,
   (claim_C3 chatDbReactionDown userU1 react0).2 .dbError rfl⟩

/-- C6: the initial subscription set of a freshly authenticated
connection is exactly its own `user:` topic, one `presence:` topic per
followed identity, and its own `presence:` topic — nothing else. -/
theorem claim_C6 :
    ∀ (verify : String → Option JwtPayload) (st : GwState) (c : Socket)
      (tok : String) (p : JwtPayload),
      c.rooms = [] →
      extractToken c.handshake = some tok → verify tok = some p →
      ∀ r : String,
        r ∈ ((handleConnection verify st c).2.1).rooms ↔
          (r = "user:" ++ p.sub ∨ r ∈ followRooms st p.sub ∨
           r = "presence:" ++ p.sub) := by
  intro verify st c tok p hrooms h1 h2 r
  simp [handleConnection, h1, h2, mem_joinRoom, mem_foldl_joinRoom, hrooms]
  tauto

/-- Witness for C6: a follower of `f1` joins `presence:f1`. -/
theorem claim_C6_witness :
    "presence:f1" ∈
      ((handleConnection idVerify gwFollowState (authSocket "s1" "u")).2.1).rooms :=
  (claim_C6 idVerify gwFollowState (authSocket "s1" "u") "u" userU rfl
      (by decide) rfl "presence:f1").mpr (by decide)

/-- C9: in every outbound event of the socket-originated handlers
(`user_typing`, `message_reaction`, `messages_read`) the `userId` field is
the authenticated identity of the emitting socket, and the outbound events
are unchanged under any identity the client's payload might claim. -/
theorem claim_C9 :
    (∀ (u : JwtPayload) (p : TypingPayload),
       ∀ e ∈ handleTypingStart u p, payloadUserId e.payload = some u.sub) ∧
    (∀ (db : ChatDb) (u : JwtPayload) (p : ReactionPayload),
       ∀ e ∈ (handleSendReaction db u p).2.1,
         payloadUserId e.payload = some u.sub) ∧
    (∀ (db : ChatDb) (u : JwtPayload) (p : TypingPayload) (now : Nat),
       ∀ e ∈ (handleMarkRead db u p now).2,
         payloadUserId e.payload = some u.sub) ∧
    (∀ (u : JwtPayload) (p : TypingPayload) (x y : Option String),
       handleTypingStart u { p with extraClaimedUserId := x } =
         handleTypingStart u { p with extraClaimedUserId := y }) ∧
    (∀ (db : ChatDb) (u : JwtPayload) (p : ReactionPayload) (x y : Option String),
       handleSendReaction db u { p with extraClaimedUserId := x } =
         handleSendReaction db u { p with extraClaimedUserId := y }) ∧
    (∀ (db : ChatDb) (u : JwtPayload) (p : TypingPayload) (now : Nat)
       (x y : Option String),
       handleMarkRead db u { p with extraClaimedUserId := x } now =
         handleMarkRead db u { p with extraClaimedUserId := y } now) := by
  refine ⟨?_, ?_, ?_, fun _ _ _ _ => rfl, fun _ _ _ _ _ => rfl,
    fun _ _ _ _ _ _ => rfl⟩
  · intro u p e he
    simp [handleTypingStart] at he
    simp [he, payloadUserId]
  · intro db u p e he
    unfold handleSendReaction at he
    rcases hr : addReaction db p.messageId u.sub p.reaction with e' | ⟨db', r⟩
    · simp [hr] at he
    · rw [hr] at he
      simp at he
      rcases he with he | he <;> simp [he, payloadUserId]
  · intro db u p now e he
    simp [handleMarkRead] at he
    simp [he, payloadUserId]

/-- Witness for C9 at a concrete typing event. -/
theorem claim_C9_witness :
    payloadUserId (Payload.userTyping "U1" "c1") = some "U1" :=
  claim_C9.1 userU1 mark0
    { room := "user:" ++ "U2", event := "user_typing",
      payload := .userTyping "U1" "c1" } (by decide)

/-- A successful message creation broadcasts exactly one `receiveMessage`
event per participant row of the message's conversation. -/
theorem createMessageAndBroadcast_ok_emits
    (db : ChatDb) (conv : ConversationRow) (senderId content : String)
    (mediaUrl mediaType postId tempId : Option String)
    (db' : ChatDb) (es : List Emit) (m : MessageRow)
    (h : createMessageAndBroadcast db conv senderId content mediaUrl mediaType
        postId tempId = (db', es, .ok m)) :
    es = (conversationParticipants db' m.conversationId).map (fun pt =>
      { room := "user:" ++ pt.userId, event := "receiveMessage",
        payload := .receiveMessage m.id m.content m.senderId m.conversationId
          m.mediaUrl m.mediaType m.postId tempId }) := by
  unfold createMessageAndBroadcast at h
  split at h
  · simp [Prod.ext_iff] at h
  · simp only [Prod.mk.injEq, Except.ok.injEq] at h
    obtain ⟨h1, h2, h3⟩ := h
    subst h1 h3
    simp [← h2]

/-- A failed message creation broadcasts nothing. -/
theorem createMessageAndBroadcast_error_emits
    (db : ChatDb) (conv : ConversationRow) (senderId content : String)
    (mediaUrl mediaType postId tempId : Option String)
    (db' : ChatDb) (es : List Emit) (e : ChatErr)
    (h : createMessageAndBroadcast db conv senderId content mediaUrl mediaType
        postId tempId = (db', es, .error e)) :
    es = [] := by
  unfold createMessageAndBroadcast at h
  split at h
  · simp only [Prod.mk.injEq] at h
    exact h.2.1.symm
  · simp [Prod.ext_iff] at h

/-- C5: when `sendMessage` persists the message, one `receiveMessage`
event carrying the persisted message together with the caller's `tempId`
is published to the self topic of each participant of the conversation;
on any error nothing is published. -/
theorem claim_C5 :
    ∀ (db : ChatDb) (senderId : String) (recipientId : Option String)
      (content : String)
      (mediaUrl mediaType conversationId tempId postId : Option String),
      (∀ (db' : ChatDb) (es : List Emit) (m : MessageRow),
        sendMessage db senderId recipientId content mediaUrl mediaType
            conversationId tempId postId = (db', es, .ok m) →
        es = (conversationParticipants db' m.conversationId).map (fun pt =>
          { room := "user:" ++ pt.userId, event := "receiveMessage",
            payload := .receiveMessage m.id m.content m.senderId
              m.conversationId m.mediaUrl m.mediaType m.postId tempId })) ∧
      (∀ (db' : ChatDb) (es : List Emit) (e : ChatErr),
        sendMessage db senderId recipientId content mediaUrl mediaType
            conversationId tempId postId = (db', es, .error e) →
        es = []) := by
  intro db senderId recipientId content mediaUrl mediaType conversationId tempId postId
  constructor
  · intro db' es m h
    unfold sendMessage at h
    split at h
    · split at h
      · simp [Prod.ext_iff] at h
      · split at h
        · exact createMessageAndBroadcast_ok_emits _ _ _ _ _ _ _ _ _ _ _ h
        · simp [Prod.ext_iff] at h
    · split at h
      · split at h
        · exact createMessageAndBroadcast_ok_emits _ _ _ _ _ _ _ _ _ _ _ h
        · exact createMessageAndBroadcast_ok_emits _ _ _ _ _ _ _ _ _ _ _ h
      · simp [Prod.ext_iff] at h
  · intro db' es e h
    unfold sendMessage at h
    split at h
    · split at h
      · simp only [Prod.mk.injEq] at h
        exact h.2.1.symm
      · split at h
        · exact createMessageAndBroadcast_error_emits _ _ _ _ _ _ _ _ _ _ _ h
        · simp only [Prod.mk.injEq] at h
          exact h.2.1.symm
    · split at h
      · split at h
        · exact createMessageAndBroadcast_error_emits _ _ _ _ _ _ _ _ _ _ _ h
        · exact createMessageAndBroadcast_error_emits _ _ _ _ _ _ _ _ _ _ _ h
      · simp only [Prod.mk.injEq] at h
        exact h.2.1.symm

/-- Witness for C5: a message in the `U1`/`U2` conversation reaches both, and a failed creation reaches no one. -/
theorem claim_C5_witness :
    ([{ room := "user:" ++ "U1", event := "receiveMessage",
        payload := .receiveMessage "row0" "hi" "U1" "c1" none none none (some "t1") },
      { room := "user:" ++ "U2", event := "receiveMessage",
        payload := .receiveMessage "row0" "hi" "U1" "c1" none none none (some "t1") }] :
      List Emit) =
      (conversationParticipants
        { chatDbConv with
          messages := [{ id := "row0", content := "hi", senderId := "U1",
                         conversationId := "c1", mediaUrl := none,
                         mediaType := none, postId := none }]
          nextId := 1 }
        (MessageRow.conversationId
          { id := "row0", content := "hi", senderId := "U1",
            conversationId := "c1", mediaUrl := none, mediaType := none,
            postId := none })).map (fun pt =>
        { room := "user:" ++ pt.userId, event := "receiveMessage",
          payload := .receiveMessage "row0" "hi" "U1" "c1" none none none
            (some "t1") }) ∧
    ([] : List Emit) = [] :=
  ⟨(claim_C5 chatDbConv "U1" none "hi" none none (some "c1") (some "t1") none).1
      { chatDbConv with
        messages := [{ id := "row0", content := "hi", senderId := "U1",
                       conversationId := "c1", mediaUrl := none,
                       mediaType := none, postId := none }]
        nextId := 1 }
      _
      { id := "row0", content := "hi", senderId := "U1",
        conversationId := "c1", mediaUrl := none, mediaType := none,
        postId := none }
      rfl,
   (claim_C5 chatDbConvDown "U1" none "hi" none none (some "c1") (some "t1")
      none).2 chatDbConvDown [] .dbError rfl⟩

/-- C10: `sendMessage` rejects with not-found when the given conversation
id is unknown, with forbidden when the sender is not a participant, and
with bad-request when neither `conversationId` nor `recipientId` is
supplied; in each case the database is unchanged and nothing is
published. -/
theorem claim_C10 :
    ∀ (db : ChatDb) (senderId content : String)
      (recipientId mediaUrl mediaType tempId postId : Option String),
      (∀ cid : String, findConversation db cid = none →
        sendMessage db senderId recipientId content mediaUrl mediaType
            (some cid) tempId postId =
          (db, [], .error (.notFound "Conversation not found"))) ∧
      (∀ (cid : String) (conv : ConversationRow),
        findConversation db cid = some conv →
        (conversationParticipants db conv.id).any
            (fun p => p.userId == senderId) = false →
        sendMessage db senderId recipientId content mediaUrl mediaType
            (some cid) tempId postId =
          (db, [], .error (.forbidden "Not a participant"))) ∧
      (sendMessage db senderId none content mediaUrl mediaType none tempId
          postId =
        (db, [],
          .error (.badRequest
            "Either conversationId or recipientId is required"))) := by
  intro db senderId content recipientId mediaUrl mediaType tempId postId
  refine ⟨?_, ?_, rfl⟩
  · intro cid h
    simp [sendMessage, h]
  · intro cid conv h1 h2
    simp [sendMessage, h1, h2]

/-- Witness for C10: the three rejection cases at concrete inputs. -/
theorem claim_C10_witness :
    sendMessage chatDbConv "U1" none "hi" none none (some "nope") none none =
      (chatDbConv, [], .error (.notFound "Conversation not found")) ∧
    sendMessage chatDbConv "U3" none "hi" none none (some "c1") none none =
      (chatDbConv, [], .error (.forbidden "Not a participant")) ∧
    sendMessage chatDbConv "U1" none "hi" none none none none none =
      (chatDbConv, [],
        .error (.badRequest "Either conversationId or recipientId is required")) :=
  ⟨(claim_C10 chatDbConv "U1" "hi" none none none none none).1 "nope" rfl,
   (claim_C10 chatDbConv "U3" "hi" none none none none none).2.1 "c1"
      { id := "c1", isGroup := false } rfl (by decide),
   (claim_C10 chatDbConv "U1" "hi" none none none none none).2.2⟩

end Circlesfera
